import Mathlib

/-!
Verification development for a theme-aware template and static-asset
resolution layer (flask_themer.py), shallowly embedded in Lean.

Strings are modelled as lists of characters (Python slicing and
str.split operate on code points), static-asset bytes as lists of
naturals, and raised exceptions as values of an explicit error type
carried in Except. Filesystem state and the host framework's template
renderer are passed in explicitly as function-valued parameters.
-/

namespace FlaskThemer

/-- Error kinds observable at the module boundary: jinja2.TemplateNotFound,
NoThemeResolver, ThemerNotInitialized, and any other exception (tagged with
an arbitrary code so that distinct foreign exceptions stay distinct). -/
inductive RErr where
  | notFound
  | noThemeResolver
  | themerNotInitialized
  | other (code : Nat)
deriving DecidableEq

/-- An HTTP-level outcome of the static route: a 200 response carrying the
asset bytes, or a 404 (werkzeug NotFound / flask abort(404)). -/
inductive Resp where
  | ok (body : List Nat)
  | notFound
deriving DecidableEq

/-- The Theme dataclass. `theme_loader_get_static` models the bound method
`theme_loader.get_static` of the ThemeLoader that created the theme;
`jinja_loader.get_source` is modelled as a function from a relative path to
template source text or a raised error. -/
structure Theme where
  theme_loader_get_static : List Char → List Char → Resp
  jinja_loader : List Char → Except RErr (List Char)
  name : List Char
  data : List (List Char × List Char) := []

/-- The mutable state of a Themer instance: the theme registry dict
(`themes`), the registered ambient resolver (`_theme_resolver`, None when
unset; its eventual call result is modelled as an Except value), and the
explicit override stack (`_explicit_theme_stack`, last element = top). -/
structure Themer where
  themes : List Char → Option Theme
  theme_resolver : Option (Except RErr (List Char))
  explicit_theme_stack : List (List Char)

/-- MAGIC_PATH_PREFIX, the unicode snowman prepended to themed paths. -/
def MAGIC_PATH_PREFIX : List Char := ['☃']

/-- Python `s.split(sep, 1)` restricted to the two-element unpacking used by
the loader: `none` models the ValueError raised when `sep` does not occur. -/
def splitFirst (sep : Char) : List Char → Option (List Char × List Char)
  | [] => none
  | c :: cs =>
    if c = sep then some ([], cs)
    else
      match splitFirst sep cs with
      | none => none
      | some (a, b) => some (c :: a, b)

/-- The parsing step of `_ThemeTemplateLoader.get_source`: drop
`len(MAGIC_PATH_PREFIX) + 1` characters, then split on the first slash. -/
def loaderParse (template : List Char) : Option (List Char × List Char) :=
  splitFirst '/' (template.drop ( MAGIC_PATH_PREFIX.length + 1))

namespace ThemeTemplateLoader

/-- `_ThemeTemplateLoader.get_source`: reject templates that do not start
with the magic value; otherwise strip the first `len(prefix)+1` characters,
split on the first '/' into theme and path (ValueError becomes
TemplateNotFound), look the theme up in the registry, and delegate to the
theme's jinja loader. -/
def get_source (themer : Themer) (template : List Char) : Except RErr (List Char) :=
  if MAGIC_PATH_PREFIX.isPrefixOf template then
    match loaderParse template with
    | none => .error .notFound
    | some (theme, path) =>
      match themer.themes theme with
      | some t => t.jinja_loader path
      | none => .error .notFound
  else .error .notFound

end ThemeTemplateLoader

/-- The pure f-string of `lookup_theme_path`:
`f'{MAGIC_PATH_PREFIX}/{theme}/{path}'`. -/
def sentinelPath (theme path : List Char) : List Char :=
  MAGIC_PATH_PREFIX ++ '/' :: (theme ++ '/' :: path)

/-- `Themer.current_theme`: top of the explicit stack when non-empty, else
the ambient resolver's result, else NoThemeResolver. -/
def Themer.current_theme (t : Themer) : Except RErr (List Char) :=
  match t.explicit_theme_stack.getLast? with
  | some theme => .ok theme
  | none =>
    match t.theme_resolver with
    | none => .error .noThemeResolver
    | some r => r

/-- `lookup_theme_path`: builds the sentinel path for the current theme,
propagating any failure of `current_theme`. -/
def lookup_theme_path (themer : Themer) (path : List Char) : Except RErr (List Char) :=
  match themer.current_theme with
  | .ok cur => .ok (sentinelPath cur path)
  | .error e => .error e

/-- The body of the `try` block in `render_template`: obtain the Themer
(`_current_themer()` may fail), rewrite the path, and hand the sentinel to
the framework renderer `flaskRender`. -/
def themedAttempt (themerL : Except RErr Themer)
    (flaskRender : List Char → Except RErr (List Char))
    (path : List Char) : Except RErr (List Char) :=
  match themerL with
  | .error e => .error e
  | .ok th =>
    match lookup_theme_path th path with
    | .error e => .error e
    | .ok sp => flaskRender sp

/-- `render_template`: try the themed lookup; on TemplateNotFound (and only
then) retry once with the original untagged path. -/
def render_template (themerL : Except RErr Themer)
    (flaskRender : List Char → Except RErr (List Char))
    (path : List Char) : Except RErr (List Char) :=
  match themedAttempt themerL flaskRender path with
  | .error .notFound => flaskRender path
  | r => r

/-- The `use_theme` context manager: push on entry, run the body (which may
read or update the Themer and finishes with a normal value or a raised
error), and pop in the `finally` block on every exit path. -/
def use_theme {α : Type} (theme : List Char) (themer : Themer)
    (body : Themer → Except RErr α × Themer) : Except RErr α × Themer :=
  let t1 := { themer with
              explicit_theme_stack := themer.explicit_theme_stack ++ [theme] }
  let r := body t1
  (r.1, { r.2 with explicit_theme_stack := r.2.explicit_theme_stack.dropLast })

/-- `Themer.current_theme_loader`: store the resolver and return it
unchanged (decorator form). -/
def Themer.current_theme_loader (t : Themer) (loader : Except RErr (List Char)) :
    Except RErr (List Char) × Themer :=
  (loader, { t with theme_resolver := some loader })

/-- One Python dict assignment `d[k] = v`. -/
def dictInsert (d : List Char → Option Theme) (k : List Char) (v : Theme) :
    List Char → Option Theme :=
  fun n => if n = k then some v else d n

/-- The registry-population loop of `Themer.init_app`: for each loader in
order, for each theme it enumerates, `self.themes[theme.name] = theme`.
Each loader is represented by the list of themes it yields. -/
def init_app_themes (loaders : List (List Theme)) : List Char → Option Theme :=
  loaders.foldl
    (fun d ts => ts.foldl (fun d' th => dictInsert d' th.name th) d)
    (fun _ => none)

/-- `Themer.init_app` (fresh instance): populate the registry from the
configured loaders; resolver and override stack start empty. -/
def Themer.init_app (loaders : List (List Theme)) : Themer :=
  { themes := init_app_themes loaders
    theme_resolver := none
    explicit_theme_stack := [] }

/-- An entry of `Path.iterdir()`: a directory child with its final name
component and whether it is a directory. -/
structure FSChild where
  name : List Char
  is_dir : Bool
deriving DecidableEq

/-- `FileSystemThemeLoader` together with the filesystem state it reads:
whether `self.path` exists, its children, the optional filter predicate,
and two oracles — `child_source c p` is what `FileSystemLoader(str(child c))`
returns for template path `p`, and `static_source t p` is the content of
`<path>/<t>/static/<p>` when that file exists. -/
structure FileSystemThemeLoader where
  path_exists : Bool
  children : List FSChild
  filter : Option (FSChild → Bool)
  child_source : List Char → List Char → Except RErr (List Char)
  static_source : List Char → List Char → Option (List Nat)

/-- `FileSystemThemeLoader.get_static`: `send_from_directory` serves the
bytes when the file exists and raises NotFound (a 404) otherwise. -/
def FileSystemThemeLoader.get_static (l : FileSystemThemeLoader)
    (theme path : List Char) : Resp :=
  match l.static_source theme path with
  | some b => .ok b
  | none => .notFound

/-- `FileSystemThemeLoader.themes`: if the root exists, walk its children,
skipping non-directories and children rejected by the filter, and yield a
Theme per remaining child, named after it. -/
def FileSystemThemeLoader.themes (l : FileSystemThemeLoader) : List Theme :=
  if l.path_exists then
    l.children.filterMap (fun child =>
      if !child.is_dir then none
      else if (match l.filter with | some f => !f child | none => false) then none
      else some { theme_loader_get_static := l.get_static
                  jinja_loader := l.child_source child.name
                  name := child.name })
  else []

/-- The `serve_static` view: unknown theme aborts with 404, otherwise the
request is delegated to the theme's originating loader. -/
def serve_static (themer : Themer) (theme filename : List Char) : Resp :=
  match themer.themes theme with
  | none => .notFound
  | some t => t.theme_loader_get_static theme filename

/-- The URL rule string passed to `theme_blueprint.route` for the static
view. -/
def serve_static_rule : List Char := "/_theme/<theme>/<path:filename>".data

/-- The endpoint name given to the static route. -/
def serve_static_endpoint : List Char := "static".data

/-- The name of the blueprint carrying the loader and the static route. -/
def theme_blueprint_name : List Char := MAGIC_PATH_PREFIX

/-! ### Helper lemmas about splitFirst -/

theorem splitFirst_eq_none_of_not_mem (sep : Char) :
    ∀ l : List Char, sep ∉ l → splitFirst sep l = none := by
  intro l h
  induction l with
  | nil => rfl
  | cons c cs ih =>
    have hc : ¬ c = sep := fun hh => h (hh ▸ List.mem_cons_self c cs)
    have hcs : sep ∉ cs := fun hh => h (List.mem_cons_of_mem c hh)
    simp only [splitFirst, if_neg hc, ih hcs]

theorem splitFirst_append_sep (sep : Char) (a b : List Char) (h : sep ∉ a) :
    splitFirst sep (a ++ sep :: b) = some (a, b) := by
  induction a with
  | nil => simp [splitFirst]
  | cons x a' ih =>
    have hx : ¬ x = sep := fun hh => h (hh ▸ List.mem_cons_self x a')
    have ha' : sep ∉ a' := fun hh => h (List.mem_cons_of_mem x hh)
    simp only [List.cons_append, splitFirst, if_neg hx, List.append_eq, ih ha']

/-! ### Concrete instances used by witnesses and counterexamples -/

/-- A sample theme named "a" whose jinja loader knows exactly one template,
"b", with source text "s". -/
def exTheme : Theme :=
  { theme_loader_get_static := fun _ _ => .notFound
    jinja_loader := fun p => if p = ['b'] then .ok ['s'] else .error .notFound
    name := ['a'] }

/-- A sample Themer whose registry maps only "a" to `exTheme`, with no
resolver and an empty override stack. -/
def exThemer : Themer :=
  { themes := fun n => if n = ['a'] then some exTheme else none
    theme_resolver := none
    explicit_theme_stack := [] }

/-- Stripping lemma: on any template of the form magic-char, one further
character, then a remainder, `get_source` proceeds with the remainder. -/
theorem get_source_strip (themer : Themer) (c : Char) (rest : List Char) :
    ThemeTemplateLoader.get_source themer ('☃' :: c :: rest) =
      (match splitFirst '/' rest with
       | none => Except.error RErr.notFound
       | some (theme, path) =>
         match themer.themes theme with
         | some t => t.jinja_loader path
         | none => Except.error RErr.notFound) := rfl

/-- C1 (corrected): the claim's step 1 is false on the code — the loader
only checks that the raw path starts with MAGIC_PATH_PREFIX and then
unconditionally skips `len(prefix)+1` characters. Here a path whose
character after the magic value is 'X', not '/', still resolves to theme
"a"'s template "b" instead of failing with NotFound. -/
theorem get_source_claim_cex :
    (( MAGIC_PATH_PREFIX ++ ['/']).isPrefixOf ['☃', 'X', 'a', '/', 'b']) = false ∧
    ThemeTemplateLoader.get_source exThemer ['☃', 'X', 'a', '/', 'b'] = Except.ok ['s'] :=
  ⟨by decide, rfl⟩

/-- C1 (amended): resolve on a raw template path: (1) a path not starting
with MAGIC_PATH_PREFIX fails with NotFound; (2) a path that is the bare
magic value, or the magic value followed by one arbitrary character and a
remainder containing no '/', fails with NotFound and with no other error;
(3) after the magic value and one skipped character, the remainder is split
on the first '/' into (theme, rel); an unregistered theme fails with
NotFound; (4) a registered theme delegates to its jinja loader at rel,
whose result or failure is propagated unchanged. -/
theorem get_source_characterization (themer : Themer) :
    (∀ template : List Char, MAGIC_PATH_PREFIX.isPrefixOf template = false →
        ThemeTemplateLoader.get_source themer template = .error .notFound) ∧
    (ThemeTemplateLoader.get_source themer MAGIC_PATH_PREFIX = .error .notFound) ∧
    (∀ (c : Char) (rest : List Char), '/' ∉ rest →
        ThemeTemplateLoader.get_source themer ( MAGIC_PATH_PREFIX ++ c :: rest)
          = .error .notFound) ∧
    (∀ (c : Char) (theme rel : List Char), '/' ∉ theme →
        themer.themes theme = none →
        ThemeTemplateLoader.get_source themer
            ( MAGIC_PATH_PREFIX ++ c :: (theme ++ '/' :: rel))
          = .error .notFound) ∧
    (∀ (c : Char) (theme rel : List Char) (t : Theme), '/' ∉ theme →
        themer.themes theme = some t →
        ThemeTemplateLoader.get_source themer
            ( MAGIC_PATH_PREFIX ++ c :: (theme ++ '/' :: rel))
          = t.jinja_loader rel) := by
  refine ⟨?_, rfl, ?_, ?_, ?_⟩
  · intro template h
    simp [ThemeTemplateLoader.get_source, h]
  · intro c rest h
    have goal : ThemeTemplateLoader.get_source themer ('☃' :: c :: rest)
        = .error .notFound := by
      rw [get_source_strip, splitFirst_eq_none_of_not_mem '/' rest h]
    exact goal
  · intro c theme rel h hn
    have goal : ThemeTemplateLoader.get_source themer ('☃' :: c :: (theme ++ '/' :: rel))
        = .error .notFound := by
      rw [get_source_strip, splitFirst_append_sep '/' theme rel h]
      simp only [hn]
    exact goal
  · intro c theme rel t h ht
    have goal : ThemeTemplateLoader.get_source themer ('☃' :: c :: (theme ++ '/' :: rel))
        = t.jinja_loader rel := by
      rw [get_source_strip, splitFirst_append_sep '/' theme rel h]
      simp only [ht]
    exact goal

/-- C1 witness: the amended step 4 at a concrete input — theme "a" is
registered and its template "b" resolves with source "s". -/
theorem get_source_characterization_witness :
    ('/' ∉ (['a'] : List Char)) ∧
    ThemeTemplateLoader.get_source exThemer
        ( MAGIC_PATH_PREFIX ++ 'X' :: (['a'] ++ '/' :: ['b'])) = Except.ok ['s'] :=
  ⟨by decide, by
    rw [(get_source_characterization exThemer).2.2.2.2 'X' ['a'] ['b'] exTheme
      (by decide) rfl]
    rfl⟩

/-- C2 (corrected): the round-trip fails when the theme name itself
contains the separator: with t = "a/b" and p = "c" the loader-side split of
the sentinel yields ("a", "b/c"), not (t, p). -/
theorem sentinel_roundtrip_cex :
    loaderParse (sentinelPath ['a', '/', 'b'] ['c'])
      ≠ some (['a', '/', 'b'], ['c']) := by decide

/-- C2 (amended): for every theme name t that does not contain the
separator '/' and every relative path p (which may contain separators),
building the sentinel as lookup_theme_path does and splitting it as the
intercepting loader does yields exactly (t, p). -/
theorem sentinel_roundtrip (t p : List Char) (h : '/' ∉ t) :
    loaderParse (sentinelPath t p) = some (t, p) := by
  have step : loaderParse (sentinelPath t p) = splitFirst '/' (t ++ '/' :: p) := rfl
  rw [step, splitFirst_append_sep '/' t p h]

/-- C2 witness: the round-trip at t = "a", p = "b/c". -/
theorem sentinel_roundtrip_witness :
    ('/' ∉ (['a'] : List Char)) ∧
    loaderParse (sentinelPath ['a'] ['b', '/', 'c']) = some (['a'], ['b', '/', 'c']) :=
  ⟨by decide, sentinel_roundtrip ['a'] ['b', '/', 'c'] (by decide)⟩

/-- C3 (confirmed): NotFound from the themed (sentinel-path) attempt is
caught exactly once and the render is retried with the original untagged
path, whose own outcome — success, NotFound, or anything else — is
returned unmodified; any non-NotFound failure of the themed attempt
(NoThemeResolver, ThemerNotInitialized, or other) propagates immediately
and is never retried; a successful themed attempt is returned as is. -/
theorem render_template_policy (themerL : Except RErr Themer)
    (flaskRender : List Char → Except RErr (List Char)) (path : List Char) :
    (themedAttempt themerL flaskRender path = .error .notFound →
        render_template themerL flaskRender path = flaskRender path) ∧
    (∀ e : RErr, e ≠ .notFound →
        themedAttempt themerL flaskRender path = .error e →
        render_template themerL flaskRender path = .error e) ∧
    (∀ v : List Char, themedAttempt themerL flaskRender path = .ok v →
        render_template themerL flaskRender path = .ok v) := by
  refine ⟨?_, ?_, ?_⟩
  · intro h
    simp [render_template, h]
  · intro e he h
    simp only [render_template, h]
    cases e with
    | notFound => exact absurd rfl he
    | noThemeResolver => rfl
    | themerNotInitialized => rfl
    | other k => rfl
  · intro v h
    simp [render_template, h]

/-- C3 witness: with no resolver registered and an empty override stack the
themed attempt fails with NoThemeResolver, which is propagated to the
caller even though the fallback renderer would have been available. -/
theorem render_template_policy_witness :
    render_template (Except.ok exThemer) (fun _ => Except.error RErr.notFound) ['p']
      = Except.error RErr.noThemeResolver :=
  (render_template_policy (Except.ok exThemer)
      (fun _ => Except.error RErr.notFound) ['p']).2.1
    RErr.noThemeResolver (by decide) rfl

/-- C4 (confirmed): current_theme returns the last element of a non-empty
override stack; with an empty stack it returns the registered resolver's
result (or failure) unchanged; with an empty stack and no resolver it fails
with NoThemeResolver. -/
theorem current_theme_spec (t : Themer) :
    (∀ (s : List (List Char)) (x : List Char),
        t.explicit_theme_stack = s ++ [x] → t.current_theme = .ok x) ∧
    (∀ r : Except RErr (List Char),
        t.explicit_theme_stack = [] → t.theme_resolver = some r →
        t.current_theme = r) ∧
    (t.explicit_theme_stack = [] → t.theme_resolver = none →
        t.current_theme = .error .noThemeResolver) := by
  refine ⟨?_, ?_, ?_⟩
  · intro s x h
    simp [Themer.current_theme, h, List.getLast?_concat]
  · intro r h hr
    simp [Themer.current_theme, h, hr]
  · intro h hr
    simp [Themer.current_theme, h, hr]

/-- A Themer whose override stack holds exactly one entry, "x". -/
def exThemerStack : Themer :=
  { themes := fun _ => none
    theme_resolver := none
    explicit_theme_stack := [['x']] }

/-- C4 witness: the stack top wins at a concrete instance. -/
theorem current_theme_spec_witness :
    Themer.current_theme exThemerStack = Except.ok ['x'] :=
  (current_theme_spec exThemerStack).1 [] ['x'] rfl

/-- Observation body for the nesting property of use_theme: inside an outer
scope it records the current theme, runs an inner use_theme scope whose
body records its current theme, and records the current theme once more
after the inner scope has exited. -/
def nestObs (inner : List Char) :
    Themer → Except RErr (List (Except RErr (List Char))) × Themer :=
  fun ta =>
    let innerRun := use_theme inner ta (fun tb => (Themer.current_theme tb, tb))
    (Except.ok [Themer.current_theme ta, innerRun.1, Themer.current_theme innerRun.2],
     innerRun.2)

/-- C5 (confirmed): use_theme pushes its theme so current_theme returns it
inside the scope; the body's outcome — normal value or raised error — is
returned without alteration while the stack is popped exactly once on that
exit, restoring the pre-scope stack (for any stack-balanced body, and in
particular for a body that raises); and nested scopes are LIFO: entering A
then B then exiting B observes current themes A, B, A and restores the
original depth. -/
theorem use_theme_spec (t : Themer) (theme : List Char)
    (body : Themer → Except RErr (List Char) × Themer)
    (hbal : (body { t with
        explicit_theme_stack :=
          t.explicit_theme_stack ++ [theme] }).2.explicit_theme_stack
      = t.explicit_theme_stack ++ [theme]) :
    (Themer.current_theme
        { t with explicit_theme_stack := t.explicit_theme_stack ++ [theme] }
      = .ok theme) ∧
    ((use_theme theme t body).1
      = (body { t with
          explicit_theme_stack := t.explicit_theme_stack ++ [theme] }).1) ∧
    ((use_theme theme t body).2.explicit_theme_stack = t.explicit_theme_stack) ∧
    (∀ e : RErr,
        (use_theme theme t
            (fun t' => ((Except.error e : Except RErr (List Char)), t'))).1
          = Except.error e ∧
        (use_theme theme t
            (fun t' => ((Except.error e : Except RErr (List Char)), t'))
          ).2.explicit_theme_stack
          = t.explicit_theme_stack) ∧
    (∀ inner : List Char,
        (use_theme theme t (nestObs inner)).1
          = Except.ok [Except.ok theme, Except.ok inner, Except.ok theme] ∧
        (use_theme theme t (nestObs inner)).2.explicit_theme_stack
          = t.explicit_theme_stack) := by
  refine ⟨?_, rfl, ?_, ?_, ?_⟩
  · simp [Themer.current_theme, List.getLast?_concat]
  · show ((body _).2.explicit_theme_stack).dropLast = _
    rw [hbal]
    exact List.dropLast_concat
  · intro e
    exact ⟨rfl, by simp [use_theme]⟩
  · intro inner
    constructor
    · simp [use_theme, nestObs, Themer.current_theme, List.getLast?_concat,
        List.dropLast_concat]
    · simp [use_theme, nestObs, List.dropLast_concat]

/-- C5 witness: a scope over an empty stack with a trivial balanced body
restores the empty stack on exit. -/
theorem use_theme_spec_witness :
    (use_theme ['A'] exThemer (fun t' => (Except.ok ['r'], t'))).2.explicit_theme_stack
      = [] :=
  (use_theme_spec exThemer ['A'] (fun t' => (Except.ok ['r'], t')) rfl).2.2.1

/-- Folding dict assignments over one loader's theme list: the resulting
lookup returns the last same-named theme of that list, else the prior
dict's answer. -/
theorem foldl_dictInsert (ts : List Theme) (d : List Char → Option Theme) (n : List Char) :
    (ts.foldl (fun d' th => dictInsert d' th.name th) d) n
      = ((ts.filter (fun th => th.name == n)).getLast?).or (d n) := by
  induction ts generalizing d with
  | nil => simp
  | cons th ts ih =>
    rw [List.foldl_cons, ih]
    by_cases h : th.name = n
    · rw [List.filter_cons_of_pos (by simp [h])]
      have hd : dictInsert d th.name th n = some th := by
        simp [dictInsert, h]
      rw [hd]
      cases hL : (ts.filter (fun th => th.name == n)).getLast? with
      | none =>
        have hnil : ts.filter (fun th => th.name == n) = [] :=
          List.getLast?_eq_none_iff.mp hL
        simp [hnil]
      | some y =>
        obtain ⟨ys, hys⟩ := List.getLast?_eq_some_iff.mp hL
        rw [hys, show th :: (ys ++ [y]) = (th :: ys) ++ [y] from rfl,
          List.getLast?_concat]
        simp
    · have hne : ¬ n = th.name := fun hh => h hh.symm
      rw [List.filter_cons_of_neg (by simp [h])]
      have hd : dictInsert d th.name th n = d n := by
        simp [dictInsert, hne]
      rw [hd]

/-- Registry population over a list of loaders with an arbitrary starting
dict. -/
theorem init_go (loaders : List (List Theme)) (d : List Char → Option Theme) (n : List Char) :
    (loaders.foldl
        (fun d ts => ts.foldl (fun d' th => dictInsert d' th.name th) d) d) n
      = (((loaders.flatten).filter (fun th => th.name == n)).getLast?).or (d n) := by
  induction loaders generalizing d with
  | nil => simp
  | cons ts ls ih =>
    rw [List.foldl_cons, ih, foldl_dictInsert]
    simp [List.filter_append, Option.or_assoc]

/-- C6 (confirmed): after init_app, looking a name up in the registry
returns the last theme with that name in the concatenation of the
configured loaders' enumerations taken in list order — i.e. every
enumerated theme is inserted keyed by its name, and on a collision a later
loader's theme overwrites an earlier one. -/
theorem init_app_last_write_wins (loaders : List (List Theme)) (n : List Char) :
    (Themer.init_app loaders).themes n
      = ((loaders.flatten).filter (fun th => th.name == n)).getLast? :=
  (init_go loaders (fun _ => none) n).trans Option.or_none

/-- A guarded filterMap is a filter followed by a map. -/
theorem filterMap_eq_filter_map {α β : Type} (f : α → Option β) (p : α → Bool)
    (g : α → β) (hf : ∀ a, f a = if p a then some (g a) else none) (l : List α) :
    l.filterMap f = (l.filter p).map g := by
  induction l with
  | nil => rfl
  | cons a l ih =>
    by_cases h : p a = true
    · rw [List.filterMap_cons_some (by rw [hf a, if_pos h]),
        List.filter_cons_of_pos h, List.map_cons, ih]
    · rw [List.filterMap_cons_none (by rw [hf a, if_neg h]),
        List.filter_cons_of_neg (by simpa using h), ih]

/-- C7 (confirmed): a missing root enumerates no themes; an existing root
enumerates exactly its immediate child directories that pass the optional
filter (a missing filter accepts everything), in order, each yielding a
theme named after the directory, with its jinja loader rooted there and
static fetches bound back to this loader. -/
theorem fs_themes_spec (l : FileSystemThemeLoader) :
    (l.path_exists = false → FileSystemThemeLoader.themes l = []) ∧
    (l.path_exists = true → FileSystemThemeLoader.themes l
        = (l.children.filter (fun c =>
              c.is_dir && (match l.filter with | some f => f c | none => true))).map
            (fun c => { theme_loader_get_static := l.get_static
                        jinja_loader := l.child_source c.name
                        name := c.name })) := by
  constructor
  · intro h
    simp [FileSystemThemeLoader.themes, h]
  · intro h
    rw [FileSystemThemeLoader.themes, if_pos h]
    apply filterMap_eq_filter_map
    intro c
    cases hd : c.is_dir with
    | false => simp [hd]
    | true =>
      cases hfl : l.filter with
      | none => simp [hd, hfl]
      | some f => cases hfc : f c <;> simp [hd, hfl, hfc]

/-- A filesystem root holding directories "a" and "_b" and a plain file
"f", with a filter that rejects names starting with an underscore. -/
def exFS : FileSystemThemeLoader :=
  { path_exists := true
    children := [ { name := ['a'], is_dir := true },
                  { name := ['_', 'b'], is_dir := true },
                  { name := ['f'], is_dir := false } ]
    filter := some (fun c => !(c.name.headD ' ' == '_'))
    child_source := fun _ _ => Except.error RErr.notFound
    static_source := fun _ _ => none }

/-- C7 witness: of {a(dir), _b(dir), f(file)} with an underscore-rejecting
filter, enumeration yields exactly one theme, named "a". -/
theorem fs_themes_spec_witness :
    (FileSystemThemeLoader.themes exFS).map Theme.name = [['a']] := by
  rw [(fs_themes_spec exFS).2 rfl]
  rfl

/-- C8 (confirmed): the static view responds 404 when the theme is not in
the registry; a registered theme delegates to its originating loader's
get_static, which for the filesystem loader responds 404 when the file is
absent and 200 with exactly the file's bytes when present. -/
theorem serve_static_spec (themer : Themer) (theme filename : List Char) :
    (themer.themes theme = none → serve_static themer theme filename = .notFound) ∧
    (∀ (t : Theme) (l : FileSystemThemeLoader),
        themer.themes theme = some t →
        t.theme_loader_get_static = l.get_static →
        ((l.static_source theme filename = none →
            serve_static themer theme filename = .notFound) ∧
         (∀ b : List Nat, l.static_source theme filename = some b →
            serve_static themer theme filename = .ok b))) := by
  constructor
  · intro h
    simp [serve_static, h]
  · intro t l ht hl
    constructor
    · intro hf
      simp [serve_static, ht, hl, FileSystemThemeLoader.get_static, hf]
    · intro b hf
      simp [serve_static, ht, hl, FileSystemThemeLoader.get_static, hf]

/-- A filesystem loader whose only static asset is theme "a", path "s",
with bytes [1, 2]. -/
def exFSStatic : FileSystemThemeLoader :=
  { path_exists := true
    children := []
    filter := none
    child_source := fun _ _ => Except.error RErr.notFound
    static_source := fun th p =>
      if th = ['a'] ∧ p = ['s'] then some [1, 2] else none }

/-- A theme "a" whose static capability is bound to `exFSStatic`. -/
def exThemeStatic : Theme :=
  { theme_loader_get_static := exFSStatic.get_static
    jinja_loader := fun _ => Except.error RErr.notFound
    name := ['a'] }

/-- A Themer registering only `exThemeStatic`. -/
def exThemerStatic : Themer :=
  { themes := fun n => if n = ['a'] then some exThemeStatic else none
    theme_resolver := none
    explicit_theme_stack := [] }

/-- C8 witness: a known theme and existing file yield 200 with the exact
bytes. -/
theorem serve_static_spec_witness :
    serve_static exThemerStatic ['a'] ['s'] = Resp.ok [1, 2] :=
  ((serve_static_spec exThemerStatic ['a'] ['s']).2 exThemeStatic exFSStatic
    rfl rfl).2 [1, 2] rfl

/-- C9 (corrected): the claim is false on the code — the URL rule
registered for the static view contains no literal 'static' segment
anywhere. -/
theorem serve_static_rule_cex :
    ¬ ("static".data ∈ serve_static_rule.splitOn '/') := by decide

/-- C9 (amended): the registered URL surface is
GET /_theme/<theme>/<path:filename> — the literal segment before the theme
parameter is '_theme'; 'static' is only the endpoint name inside the
blueprint, which itself is named with the magic prefix. -/
theorem serve_static_rule_spec :
    serve_static_rule.splitOn '/'
        = [[], "_theme".data, "<theme>".data, "<path:filename>".data] ∧
    serve_static_endpoint = "static".data ∧
    theme_blueprint_name = MAGIC_PATH_PREFIX :=
  ⟨by decide, rfl, rfl⟩

/-- C10 (confirmed): current_theme_loader returns the passed resolver
unchanged (decorator form) and unconditionally replaces any previously
registered resolver — after registering f and then g, an empty-stack
current_theme returns exactly g's result, for every f. -/
theorem current_theme_loader_spec (t : Themer) (f g : Except RErr (List Char)) :
    ((Themer.current_theme_loader t f).1 = f) ∧
    ((Themer.current_theme_loader
        (Themer.current_theme_loader t f).2 g).2.theme_resolver = some g) ∧
    (t.explicit_theme_stack = [] →
        Themer.current_theme
            (Themer.current_theme_loader
              (Themer.current_theme_loader t f).2 g).2 = g) := by
  refine ⟨rfl, rfl, ?_⟩
  intro h
  simp [Themer.current_theme_loader, Themer.current_theme, h]

/-- C10 witness: registering "f" then "g" on a fresh Themer makes
current_theme return g's result. -/
theorem current_theme_loader_spec_witness :
    Themer.current_theme
        (Themer.current_theme_loader
          (Themer.current_theme_loader exThemer (Except.ok ['f'])).2
          (Except.ok ['g'])).2
      = Except.ok ['g'] :=
  (current_theme_loader_spec exThemer (Except.ok ['f']) (Except.ok ['g'])).2.2 rfl

end FlaskThemer
